import Mathlib

/-!
# Verification of the personal-fin-sim core engine

Shallow embedding of the fund-simulation engine of `personal-fin-sim`
(files `src/asset.cpp`, `src/modelRecession.cpp`, headers `constants.h`,
`modelRecession.h`, `userDataLoading.h`) together with proofs of the
behavioural properties stated in the design document.

Modelling conventions:
* C++ `long int` / `int` money amounts and `float` rates are modelled over `ℚ`
  (exact arithmetic, the standard idealisation of the numeric types; the
  properties below are statements about the exact computation the code
  performs, not about rounding).
* The fixed-size arrays `std::array<..., MAX_YEARS>` are modelled as total
  functions `ℕ → _`; the code only ever reads or writes indices `< MAX_YEARS`,
  and all update functions guard their writes the same way the code guards
  its loop bounds.
* Account indices are `Fin MAX_ACCOUNTS`.
* The `std::mt19937` uniform draws in `[RANDOM_NUM_MIN, RANDOM_NUM_MAX]` are
  modelled by an injected stream `rng : ℕ → ℕ` consumed in draw order.
* Mutating member functions become state transformers `AssetState → AssetState`.
-/

namespace PersonalFinSim

/-! ## Constants (`constants.h`, `modelRecession.h`) -/

abbrev MAX_YEARS : ℕ := 50

abbrev MAX_ACCOUNTS : ℕ := 4

/-- `CASH_RESERVE` is 0 in v0.1 (`constants.h`, marked DO NOT EDIT). -/
def CASH_RESERVE : ℚ := 0

def INDIVIDUAL_INDEX : Fin MAX_ACCOUNTS := 0

def ROTH_INDEX : Fin MAX_ACCOUNTS := 1

def IRA_INDEX : Fin MAX_ACCOUNTS := 2

def R401K_INDEX : Fin MAX_ACCOUNTS := 3

def STOCK_GROWTH_AVG : ℚ := 0.113

def STOCK_AVG_SPAN : ℚ := 0.2

def STOCK_AVG_SPAN_HALF : ℚ := STOCK_AVG_SPAN / 2

def RECESSION_MIN : ℚ := -0.45

def RECESSION_MAX : ℚ := -0.15

abbrev RECESSION_START_MOD : ℕ := 1

abbrev RECESSION_INT_MIN : ℕ := 8

abbrev RECESSION_INT_MAX : ℕ := 11

abbrev RECOVERY_INT_MIN : ℕ := 1

abbrev RECOVERY_INT_MAX : ℕ := 4

abbrev RANDOM_NUM_MIN : ℕ := 1

abbrev RANDOM_NUM_MAX : ℕ := 100

/-- The hard-coded worst-case growth curve `RECESSION_YEAR0_LOSS`
(`modelRecession.h`). -/
def RECESSION_YEAR0_LOSS : List ℚ :=
  [-0.426, 0.1187, 0.213, 0.213, 0.0906842,
   0.232684, 0.242684, 0.132684, 0.146684, 0.114684,
   0.0826842, 0.110684, -0.237, 0.1185, 0.1185,
   0.0926842, 0.176684, 0.138684, 0.200684, 0.218684,
   0.140684, 0.122684, 0.0726842, 0.0706842, 0.220684,
   0.190684, -0.312, 0.156, 0.156, 0.144684,
   0.0786842, 0.150684, 0.148684, 0.136684, 0.218684,
   0.0526842, 0.236684, -0.321, 0.136684, 0.1605,
   0.1605, 0.246684, 0.232684, 0.240684, 0.124684,
   0.0926842, 0.242684, 0.236684, 0.130684, 0.216684]

/-! ## Data model (`asset.h`, `userDataLoading.h`) -/

/-- The mutable state of an `Asset` object (`asset.h`).  Year-indexed
`std::array`s become functions `ℕ → _`; only indices `< MAX_YEARS` are
meaningful. -/
@[ext]
structure AssetState where
  fundLongevity : ℤ
  cashReserve : ℚ
  growthRate : Fin MAX_ACCOUNTS → ℕ → ℚ
  name : Fin MAX_ACCOUNTS → String
  yearsTillRetirement : ℤ
  takehomeIncome : ℚ
  contributionRoth : ℚ
  contributionIra : ℚ
  contributionR401k : ℚ
  value : Fin MAX_ACCOUNTS → ℕ → ℚ
  availability : Fin MAX_ACCOUNTS → ℕ → Bool
  expense : ℕ → ℚ
  distribution : Fin MAX_ACCOUNTS → ℕ → ℚ
  growthRateAvg : Fin MAX_ACCOUNTS → ℚ
  inflation : ℕ → ℚ

/-- The validated user profile (`userDataLoading.h`, `struct UserData`).
`yearsTillRetirement` is an `unsigned short` in the source, hence `ℕ`. -/
structure UserData where
  name : Fin MAX_ACCOUNTS → String
  value : Fin MAX_ACCOUNTS → ℚ
  rate : Fin MAX_ACCOUNTS → ℚ
  initialExpense : ℚ
  takehomeIncome : ℚ
  contributionRoth : ℚ
  contributionIra : ℚ
  contributionR401k : ℚ
  initialInflation : ℚ
  yearsTillRetirement : ℕ

/-- The default constructor `Asset::Asset()` (asset.cpp, lines 287-322):
everything zeroed, all availability false, names empty. -/
def assetInit : AssetState where
  fundLongevity := 0
  cashReserve := 0
  growthRate := fun _ _ => 0
  name := fun _ => ""
  yearsTillRetirement := 0
  takehomeIncome := 0
  contributionRoth := 0
  contributionIra := 0
  contributionR401k := 0
  value := fun _ _ => 0
  availability := fun _ _ => false
  expense := fun _ => 0
  distribution := fun _ _ => 0
  growthRateAvg := fun _ => 0
  inflation := fun _ => 0

/-! ## Cash reserve operations (asset.cpp, lines 38-55) -/

/-- `Asset::addCashReserve(cash, asset_num, n_year)` (asset.cpp, lines 38-50):
if `value_[asset_num][n_year] > cash`, add `cash` to the reserve, subtract it
from that account-year value and return `true`; otherwise return `false` and
leave the state untouched. -/
def addCashReserve (s : AssetState) (cash : ℚ) (asset_num : Fin MAX_ACCOUNTS)
    (n_year : ℕ) : Bool × AssetState :=
  if cash < s.value asset_num n_year then
    (true,
      { s with
        cashReserve := s.cashReserve + cash
        value := fun c j =>
          if c = asset_num ∧ j = n_year then s.value c j - cash else s.value c j })
  else
    (false, s)

/-- `Asset::clearCashReserve()` (asset.cpp, lines 52-55). -/
def clearCashReserve (s : AssetState) : AssetState :=
  { s with cashReserve := 0 }

/-- The reserve-drain idiom `expense_[i] -= cashReserve_; clearCashReserve();`
(asset.cpp, lines 93-94 and 142-143). -/
def drainReserve (s : AssetState) (i : ℕ) : AssetState :=
  clearCashReserve
    { s with
      expense := fun j => if j = i then s.expense j - s.cashReserve else s.expense j }

/-! ## The year loop of `Asset::calculateN` (asset.cpp, lines 57-239)

The loop body is split into the successive phases of the source, each a
state transformer.  `net_expense`, `contribution_individual` and
`distributable_total` are computed before the shortfall check and are *not*
recomputed after a reserve drain (they are passed unchanged into the
distribution phase, exactly as the local variables of the source are). -/

/-- Retirement transition (asset.cpp, lines 68-76). -/
def retirementStep (s : AssetState) (i : ℕ) : AssetState :=
  if (i : ℤ) = s.yearsTillRetirement then
    { s with
      takehomeIncome := 0
      contributionRoth := 0
      contributionIra := 0
      contributionR401k := 0 }
  else s

/-- Cash-reserve policy (asset.cpp, lines 86-112): for `i > 0`, drain the
reserve after a negative prior-year Individual growth, else replenish it
(by the constant `CASH_RESERVE`) after a positive one. -/
def cashPolicyStep (s : AssetState) (i : ℕ) : AssetState :=
  if 0 < i ∧ s.growthRate INDIVIDUAL_INDEX (i - 1) < 0 ∧ 0 < s.cashReserve then
    drainReserve s i
  else if 0 < i ∧ 0 < s.growthRate INDIVIDUAL_INDEX (i - 1) ∧ s.cashReserve = 0 then
    (addCashReserve s CASH_RESERVE INDIVIDUAL_INDEX i).2
  else s

/-- The state in which year `i` reaches the shortfall check: retirement
transition followed by the cash-reserve policy. -/
def stateAtCheck (s : AssetState) (i : ℕ) : AssetState :=
  cashPolicyStep (retirementStep s i) i

/-- `distributable_total` (asset.cpp, lines 115-122): sum of this-year values
of the available accounts (the `c = 0..3` loop unrolled). -/
def distributableTotal (s : AssetState) (i : ℕ) : ℚ :=
  (if s.availability 0 i then s.value 0 i else 0) +
  (if s.availability 1 i then s.value 1 i else 0) +
  (if s.availability 2 i then s.value 2 i else 0) +
  (if s.availability 3 i then s.value 3 i else 0)

/-- `net_expense` (asset.cpp, line 127): `std::max(expense - income, 0)`,
written as the conditional `std::max` is defined to be (this keeps the
definition kernel-computable). -/
def netExpense (s : AssetState) (i : ℕ) : ℚ :=
  if s.expense i - s.takehomeIncome < 0 then 0 else s.expense i - s.takehomeIncome

/-- `contribution_individual` (asset.cpp, line 128):
`std::max(income - expense, 0)`. -/
def contributionIndividual (s : AssetState) (i : ℕ) : ℚ :=
  if s.takehomeIncome - s.expense i < 0 then 0 else s.takehomeIncome - s.expense i

lemma netExpense_eq_max (s : AssetState) (i : ℕ) :
    netExpense s i = max (s.expense i - s.takehomeIncome) 0 := by
  unfold netExpense
  rcases lt_or_le (s.expense i - s.takehomeIncome) 0 with h | h
  · simp [h, max_eq_right h.le]
  · simp [not_lt.mpr h, max_eq_left h]

/-- Distribution and growth phase (asset.cpp, lines 151-196):
`distribution_percentage = net / dtot`; each available account withdraws
`value * percentage`, unavailable accounts withdraw `0`; then, guarded by
`i + 1 < MAX_YEARS`, next-year value is `(value - distribution) * (1 + growth)`.
`net` and `dtot` are the loop locals computed before the shortfall check. -/
def distGrowthStep (s : AssetState) (i : ℕ) (net dtot : ℚ) : AssetState :=
  let pct : ℚ := net / dtot
  let dist' : Fin MAX_ACCOUNTS → ℕ → ℚ := fun c j =>
    if j = i then (if s.availability c i then s.value c i * pct else 0)
    else s.distribution c j
  { s with
    distribution := dist'
    value := fun c j =>
      if j = i + 1 ∧ i + 1 < MAX_YEARS then
        (s.value c i - dist' c i) * (1 + s.growthRate c i)
      else s.value c j }

/-- Pre-retirement contribution phase (asset.cpp, lines 200-217), guarded by
`i < yearsTillRetirement && i + 1 < MAX_YEARS`: credit the surplus `cind` to
Individual and the three contribution scalars to Roth/IRA/401k next-year
values, then inflate the contribution scalars and the takehome income. -/
def contributionStep (s : AssetState) (i : ℕ) (cind : ℚ) : AssetState :=
  if (i : ℤ) < s.yearsTillRetirement ∧ i + 1 < MAX_YEARS then
    { s with
      value := fun c j =>
        if j = i + 1 then
          s.value c j +
            (if c = INDIVIDUAL_INDEX then cind
             else if c = ROTH_INDEX then s.contributionRoth
             else if c = IRA_INDEX then s.contributionIra
             else s.contributionR401k)
        else s.value c j
      contributionRoth := s.contributionRoth * (1 + s.inflation i)
      contributionIra := s.contributionIra * (1 + s.inflation i)
      contributionR401k := s.contributionR401k * (1 + s.inflation i)
      takehomeIncome := s.takehomeIncome * (1 + s.inflation i) }
  else s

/-- Expense and reserve inflation phase (asset.cpp, lines 220-229). -/
def expenseInflationStep (s : AssetState) (i : ℕ) : AssetState :=
  let s' :=
    if i + 1 < MAX_YEARS then
      { s with
        expense := fun j =>
          if j = i + 1 then s.expense i * (1 + s.inflation i) else s.expense j }
    else s
  if 0 < s'.cashReserve then
    { s' with cashReserve := s'.cashReserve * (1 + s'.inflation i) }
  else s'

/-- The remainder of a loop iteration once the shortfall check has been
passed, applied to the (possibly drained) state: distribution and growth,
contributions, expense and reserve inflation. -/
def yearRest (s : AssetState) (i : ℕ) (net dtot cind : ℚ) : AssetState :=
  expenseInflationStep (contributionStep (distGrowthStep s i net dtot) i cind) i

/-- The year loop of `Asset::calculateN` (asset.cpp, lines 64-232), written
with an explicit fuel argument (`calculateN` supplies `MAX_YEARS`, so fuel
runs out exactly when `i` reaches `MAX_YEARS`).  On a shortfall that the
reserve cannot strictly cover, the loop breaks and `fundLongevity_ = i`. -/
def calcLoop : ℕ → ℕ → AssetState → AssetState
  | 0, i, s => { s with fundLongevity := (i : ℤ) }
  | fuel + 1, i, s =>
    if i < MAX_YEARS then
      let s2 := stateAtCheck s i
      let dtot := distributableTotal s2 i
      let net := netExpense s2 i
      let cind := contributionIndividual s2 i
      if dtot < net then
        if net < dtot + s2.cashReserve then
          calcLoop fuel (i + 1) (yearRest (drainReserve s2 i) i net dtot cind)
        else
          { s2 with fundLongevity := (i : ℤ) }
      else
        calcLoop fuel (i + 1) (yearRest s2 i net dtot cind)
    else { s with fundLongevity := (i : ℤ) }

/-- `Asset::calculateN()` (asset.cpp, lines 57-239). -/
def calculateN (s : AssetState) : AssetState :=
  calcLoop MAX_YEARS 0 s

/-! ## `Asset::initializeFromUserData` (asset.cpp, lines 241-285) -/

/-- `Asset::initializeFromUserData(user)`: copy the profile into year 0,
reset reserve and longevity, set year-0 availability (Individual only),
seed the reserve with `CASH_RESERVE`, then replicate year-0 data across
years `1..MAX_YEARS-1` with the retirement-gated availability for the
tax-advantaged accounts. -/
def initializeFromUserData (u : UserData) (s : AssetState) : AssetState :=
  let s1 : AssetState :=
    { s with
      fundLongevity := 0
      cashReserve := 0
      name := fun c => u.name c
      value := fun c j => if j = 0 then u.value c else s.value c j
      growthRateAvg := fun c => u.rate c
      distribution := fun c j => if j = 0 then 0 else s.distribution c j
      expense := fun j => if j = 0 then u.initialExpense else s.expense j
      takehomeIncome := u.takehomeIncome
      contributionRoth := u.contributionRoth
      contributionIra := u.contributionIra
      contributionR401k := u.contributionR401k
      yearsTillRetirement := (u.yearsTillRetirement : ℤ)
      inflation := fun j => if j = 0 then u.initialInflation else s.inflation j
      availability := fun c j =>
        if j = 0 then decide (c = INDIVIDUAL_INDEX) else s.availability c j }
  let s2 := clearCashReserve s1
  let s3 := (addCashReserve s2 CASH_RESERVE INDIVIDUAL_INDEX 0).2
  { s3 with
    value := fun c j =>
      if 1 ≤ j ∧ j < MAX_YEARS then s3.value c 0 else s3.value c j
    distribution := fun c j =>
      if 1 ≤ j ∧ j < MAX_YEARS then s3.distribution c 0 else s3.distribution c j
    availability := fun c j =>
      if 1 ≤ j ∧ j < MAX_YEARS then
        if c = INDIVIDUAL_INDEX then s3.availability 0 0
        else if j < u.yearsTillRetirement then s3.availability c 0
        else true
      else s3.availability c j
    expense := fun j =>
      if 1 ≤ j ∧ j < MAX_YEARS then s3.expense 0 else s3.expense j
    inflation := fun j =>
      if 1 ≤ j ∧ j < MAX_YEARS then s3.inflation 0 else s3.inflation j }

/-! ## Growth-curve generation (`modelRecession.cpp`) -/

/-- Pointwise update of a year-indexed curve. -/
def updN (f : ℕ → ℚ) (n : ℕ) (v : ℚ) : ℕ → ℚ :=
  fun j => if j = n then v else f j

/-- `Asset::scenarioPredefinedYear0Loss` (modelRecession.cpp, lines 39-43):
copy the hard-coded reference curve into the common growth curve. -/
def scenarioPredefinedYear0Loss : ℕ → ℚ :=
  fun n => if n < MAX_YEARS then RECESSION_YEAR0_LOSS.getD n 0 else 0

/-- The `while` loop of `Asset::scenarioRecessionRandomized`
(modelRecession.cpp, lines 78-115).  Arguments: remaining fuel, the curve so
far, the current year `n`, the next unused draw index `k`, and the
recession/recovery year count `rr_years_sum`.  Returns the curve, the next
draw index and the final count.  A full iteration consumes three draws
(severity, recovery gap, next recession gap) and advances `n` by at least
10, so `MAX_YEARS` fuel is more than the loop can use. -/
def recLoop (rng : ℕ → ℕ) : ℕ → (ℕ → ℚ) → ℕ → ℕ → ℕ → ((ℕ → ℚ) × ℕ × ℕ)
  | 0, g, _, k, rrsum => (g, k, rrsum)
  | fuel + 1, g, n, k, rrsum =>
    if n < MAX_YEARS then
      let recession_rate : ℚ :=
        RECESSION_MIN +
          ((rng k : ℚ) / (RANDOM_NUM_MAX : ℚ)) * (RECESSION_MAX - RECESSION_MIN)
      let half_rebound : ℚ := -recession_rate / 2
      let g1 := updN g n recession_rate
      let recovery_y := RECOVERY_INT_MIN + rng (k + 1) % (RECOVERY_INT_MAX - RECOVERY_INT_MIN)
      if MAX_YEARS ≤ n + recovery_y then (g1, k + 2, rrsum + 1)
      else
        let g2 := updN g1 (n + recovery_y) half_rebound
        if MAX_YEARS ≤ n + recovery_y + 1 then (g2, k + 2, rrsum + 2)
        else
          let g3 := updN g2 (n + recovery_y + 1) half_rebound
          let recession_y :=
            RECESSION_INT_MIN + rng (k + 2) % (RECESSION_INT_MAX - RECESSION_INT_MIN)
          recLoop rng fuel g3 (n + recovery_y + 1 + recession_y) (k + 3) (rrsum + 3)
    else (g, k, rrsum)

/-- The remaining-years fill loop of `Asset::scenarioRecessionRandomized`
(modelRecession.cpp, lines 124-135): every year still at 0 gets a draw from
the band centred on the adjusted average; one draw is consumed per such
year. -/
def fillLoop (rng : ℕ → ℕ) (ravg : ℚ) : ℕ → ℕ → ℕ → (ℕ → ℚ) → (ℕ → ℚ)
  | 0, _, _, g => g
  | fuel + 1, n, k, g =>
    if n < MAX_YEARS then
      if g n = 0 then
        fillLoop rng ravg fuel (n + 1) (k + 1)
          (updN g n
            ((ravg - STOCK_AVG_SPAN_HALF) +
              (rng k : ℚ) / (RANDOM_NUM_MAX : ℚ) * STOCK_AVG_SPAN))
      else fillLoop rng ravg fuel (n + 1) k g
    else g

/-- `Asset::scenarioRecessionRandomized` (modelRecession.cpp, lines 48-136):
zero-initialise the curve, draw the first recession year modulo
`RECESSION_START_MOD`, run the recession/recovery loop, then fill the
remaining years around the compensated average
`(STOCK_GROWTH_AVG * MAX_YEARS) / (MAX_YEARS - rr_years_sum)`. -/
def scenarioRecessionRandomized (rng : ℕ → ℕ) : ℕ → ℚ :=
  let g0 : ℕ → ℚ := fun _ => 0
  let recession_y := rng 0 % RECESSION_START_MOD
  let res := recLoop rng MAX_YEARS g0 recession_y 1 0
  let remaining_growth_avg : ℚ :=
    STOCK_GROWTH_AVG * (MAX_YEARS : ℚ) / ((MAX_YEARS : ℚ) - (res.2.2 : ℚ))
  fillLoop rng remaining_growth_avg MAX_YEARS 0 res.2.1 res.1

/-- The common market curve produced by the `switch` of
`Asset::populateGrowthCurves` (modelRecession.cpp, lines 145-165):
`growth_common` stays zero-initialised for `CONSTANT` and for an
unrecognized selector (which only prints to `stderr`). -/
def commonCurve (o : ℤ) (rng : ℕ → ℕ) : ℕ → ℚ :=
  if o = 1 then scenarioPredefinedYear0Loss
  else if o = 2 then scenarioRecessionRandomized rng
  else fun _ => 0

/-- `Asset::populateGrowthCurves(option)` (modelRecession.cpp, lines 141-181).
The `ModelOption` selector is its underlying integer (`CONSTANT = 0`,
`PREDEFINED_YEAR0_LOSS = 1`, `RECESSION_RANDOMIZED = 2`; any other value
falls into the `default:` arm, which only writes a console message).  For a
non-`CONSTANT` selector the common curve is scaled per account by the
clamped participation ratio `growthRateAvg / STOCK_GROWTH_AVG`. -/
def populateGrowthCurves (o : ℤ) (rng : ℕ → ℕ) (s : AssetState) : AssetState :=
  let s' :=
    if o = 0 then
      { s with
        growthRate := fun c n =>
          if n < MAX_YEARS then s.growthRateAvg c else s.growthRate c n }
    else s
  if o ≠ 0 then
    { s' with
      growthRate := fun c n =>
        if n < MAX_YEARS then
          commonCurve o rng n *
            (if s.growthRateAvg c / STOCK_GROWTH_AVG ≤ 1 then
              s.growthRateAvg c / STOCK_GROWTH_AVG
             else 1)
        else s'.growthRate c n }
  else s'

/-- Sum of all four account values in year `i` (the total portfolio value). -/
def totalValue (s : AssetState) (i : ℕ) : ℚ :=
  s.value 0 i + s.value 1 i + s.value 2 i + s.value 3 i

/-! ## Concrete states used by witnesses and counterexamples -/

/-- A simple concrete state: every account holds 10 in every year. -/
def wState : AssetState :=
  { assetInit with value := fun _ _ => 10 }

/-! ## Small frame lemmas -/

lemma addCashReserve_availability (s : AssetState) (cash : ℚ)
    (a : Fin MAX_ACCOUNTS) (y : ℕ) :
    (addCashReserve s cash a y).2.availability = s.availability := by
  unfold addCashReserve
  split <;> rfl

/-! ## Claim theorems -/

/-- C5: `addCashReserve(cash, asset_num, n_year)` succeeds (returns `true`)
iff `value[asset_num][n_year]` strictly exceeds `cash`; on success the
reserve grows by exactly `cash` and the source account-year value shrinks by
exactly `cash` (no other value cell changes); on failure the state is
returned unchanged.  (It never raises: the embedding is a total function,
as the source has no throwing operation.) -/
theorem addCashReserve_spec (s : AssetState) (cash : ℚ) (a : Fin MAX_ACCOUNTS)
    (y : ℕ) :
    ((addCashReserve s cash a y).1 = true ↔ cash < s.value a y)
    ∧ (cash < s.value a y →
        (addCashReserve s cash a y).2.cashReserve = s.cashReserve + cash
        ∧ (addCashReserve s cash a y).2.value a y = s.value a y - cash
        ∧ (∀ (c : Fin MAX_ACCOUNTS) (j : ℕ), ¬(c = a ∧ j = y) →
            (addCashReserve s cash a y).2.value c j = s.value c j))
    ∧ (¬ cash < s.value a y → (addCashReserve s cash a y).2 = s) := by
  unfold addCashReserve
  split_ifs with h
  · exact ⟨by simp [h], fun _ => ⟨rfl, by simp, fun c j hcj => if_neg hcj⟩,
      fun h2 => absurd h h2⟩
  · exact ⟨by simp [h], fun h1 => absurd h1 h, fun _ => rfl⟩

/-- C5 witness: on `wState` (every value 10), requesting 3 from account 0 in
year 0 succeeds and moves exactly 3. -/
theorem addCashReserve_spec_witness :
    ((3 : ℚ) < wState.value 0 0)
    ∧ (addCashReserve wState 3 0 0).1 = true
    ∧ (addCashReserve wState 3 0 0).2.cashReserve = wState.cashReserve + 3
    ∧ (addCashReserve wState 3 0 0).2.value 0 0 = wState.value 0 0 - 3 := by
  have h := addCashReserve_spec wState 3 0 0
  have h3 : (3 : ℚ) < wState.value 0 0 := by decide
  exact ⟨h3, h.1.mpr h3, (h.2.1 h3).1, (h.2.1 h3).2.1⟩

/-- C2: in the distribution-and-growth phase of year `i`, when
`i + 1 < MAX_YEARS`, the next-year pre-distribution value of every account
satisfies `value[c][i+1] = (value[c][i] - distribution[c][i]) *
(1 + growthRate[c][i])` — stated on the state this phase produces, i.e.
before the pre-retirement contribution step adds anything. -/
theorem growth_projection (s : AssetState) (i : ℕ) (net dtot : ℚ)
    (c : Fin MAX_ACCOUNTS) (h : i + 1 < MAX_YEARS) :
    (distGrowthStep s i net dtot).value c (i + 1)
      = ((distGrowthStep s i net dtot).value c i
          - (distGrowthStep s i net dtot).distribution c i)
        * (1 + (distGrowthStep s i net dtot).growthRate c i) := by
  simp [distGrowthStep, h]

/-- C2 witness: the growth-projection identity instantiated on `wState` at
year 0. -/
theorem growth_projection_witness :
    0 + 1 < MAX_YEARS
    ∧ (distGrowthStep wState 0 5 10).value 0 (0 + 1)
        = ((distGrowthStep wState 0 5 10).value 0 0
            - (distGrowthStep wState 0 5 10).distribution 0 0)
          * (1 + (distGrowthStep wState 0 5 10).growthRate 0 0) :=
  ⟨by decide, growth_projection wState 0 5 10 0 (by decide)⟩

/-- C9: after `initializeFromUserData`, for every year `i < MAX_YEARS` the
Individual account is available; each other account (Roth, IRA, 401k) is
unavailable at year 0 unconditionally — including when
`yearsTillRetirement = 0` — and for `1 ≤ i` it is available exactly when
`yearsTillRetirement ≤ i`. -/
theorem initialize_availability (u : UserData) (s : AssetState) (i : ℕ)
    (hi : i < MAX_YEARS) :
    (initializeFromUserData u s).availability INDIVIDUAL_INDEX i = true
    ∧ (∀ c : Fin MAX_ACCOUNTS, c ≠ INDIVIDUAL_INDEX →
        (initializeFromUserData u s).availability c 0 = false
        ∧ (1 ≤ i →
            ((initializeFromUserData u s).availability c i = true
              ↔ u.yearsTillRetirement ≤ i))) := by
  simp only [initializeFromUserData, addCashReserve_availability, clearCashReserve]
  constructor
  · rcases Nat.eq_zero_or_pos i with h0 | h1
    · simp [h0, INDIVIDUAL_INDEX]
    · simp only [INDIVIDUAL_INDEX]
      simp [hi]
      omega
  · intro c hc
    simp only [INDIVIDUAL_INDEX] at hc
    refine ⟨by simp [hc, INDIVIDUAL_INDEX], fun h1 => ?_⟩
    simp only [h1, hi, and_self, if_true, hc, INDIVIDUAL_INDEX, if_false, true_and]
    constructor
    · intro hyt
      by_contra hlt
      simp [Nat.lt_of_not_le hlt, hc] at hyt
    · intro hyt
      simp [hc, Nat.not_lt_of_le hyt]

/-- C9 witness: the availability pattern instantiated on a concrete profile
with `yearsTillRetirement = 0` at year 3. -/
theorem initialize_availability_witness :
    3 < MAX_YEARS
    ∧ (initializeFromUserData
        { name := fun _ => ""
          value := fun _ => 12500
          rate := fun _ => 0
          initialExpense := 1000
          takehomeIncome := 0
          contributionRoth := 0
          contributionIra := 0
          contributionR401k := 0
          initialInflation := 0
          yearsTillRetirement := 0 } assetInit).availability INDIVIDUAL_INDEX 3
        = true :=
  ⟨by decide,
    (initialize_availability
      { name := fun _ => ""
        value := fun _ => 12500
        rate := fun _ => 0
        initialExpense := 1000
        takehomeIncome := 0
        contributionRoth := 0
        contributionIra := 0
        contributionR401k := 0
        initialInflation := 0
        yearsTillRetirement := 0 } assetInit 3 (by decide)).1⟩

/-! ## C1: the shortfall check -/

/-- One unfolding of the year loop at a year `i < MAX_YEARS`. -/
lemma calcLoop_succ (fuel i : ℕ) (s : AssetState) (hi : i < MAX_YEARS) :
    calcLoop (fuel + 1) i s =
      (if distributableTotal (stateAtCheck s i) i < netExpense (stateAtCheck s i) i then
        if netExpense (stateAtCheck s i) i
            < distributableTotal (stateAtCheck s i) i + (stateAtCheck s i).cashReserve then
          calcLoop fuel (i + 1)
            (yearRest (drainReserve (stateAtCheck s i) i) i
              (netExpense (stateAtCheck s i) i)
              (distributableTotal (stateAtCheck s i) i)
              (contributionIndividual (stateAtCheck s i) i))
        else { stateAtCheck s i with fundLongevity := (i : ℤ) }
      else
        calcLoop fuel (i + 1)
          (yearRest (stateAtCheck s i) i
            (netExpense (stateAtCheck s i) i)
            (distributableTotal (stateAtCheck s i) i)
            (contributionIndividual (stateAtCheck s i) i))) := by
  simp only [calcLoop]
  rw [if_pos hi]

/-- C1 (amended): at every year `i` the loop reaches, writing `s2` for the
state at the shortfall check, `net` for the net expense and `dtot` for the
distributable total: if `dtot < net` and `net` is *strictly* less than
`dtot + cashReserve`, the loop drains the reserve entirely into this year's
expense reduction (reserve becomes 0, `expense[i]` drops by the old reserve)
and continues; otherwise — i.e. when `dtot + cashReserve ≤ net`, which
includes the equality case the original claim assigned to the continue
branch — it terminates immediately with `fundLongevity = i`. -/
theorem shortfall_check (fuel i : ℕ) (s : AssetState) (hi : i < MAX_YEARS) :
    (distributableTotal (stateAtCheck s i) i < netExpense (stateAtCheck s i) i →
      netExpense (stateAtCheck s i) i
          < distributableTotal (stateAtCheck s i) i + (stateAtCheck s i).cashReserve →
        calcLoop (fuel + 1) i s
          = calcLoop fuel (i + 1)
              (yearRest (drainReserve (stateAtCheck s i) i) i
                (netExpense (stateAtCheck s i) i)
                (distributableTotal (stateAtCheck s i) i)
                (contributionIndividual (stateAtCheck s i) i))
        ∧ (drainReserve (stateAtCheck s i) i).cashReserve = 0
        ∧ (drainReserve (stateAtCheck s i) i).expense i
            = (stateAtCheck s i).expense i - (stateAtCheck s i).cashReserve)
    ∧ (distributableTotal (stateAtCheck s i) i < netExpense (stateAtCheck s i) i →
        distributableTotal (stateAtCheck s i) i + (stateAtCheck s i).cashReserve
            ≤ netExpense (stateAtCheck s i) i →
        calcLoop (fuel + 1) i s = { stateAtCheck s i with fundLongevity := (i : ℤ) }
        ∧ (calcLoop (fuel + 1) i s).fundLongevity = (i : ℤ)) := by
  rw [calcLoop_succ fuel i s hi]
  constructor
  · intro h1 h2
    rw [if_pos h1, if_pos h2]
    exact ⟨rfl, rfl, by simp [drainReserve, clearCashReserve]⟩
  · intro h1 h2
    rw [if_pos h1, if_neg (not_lt.mpr h2)]
    exact ⟨rfl, rfl⟩

/-- A state sitting exactly on the boundary the original claim gets wrong:
at year 0 the net expense is 100, the distributable total is 50 and the
reserve is 50, so `net = dtot + reserve` exactly. -/
def cexShortfall : AssetState :=
  { assetInit with
    expense := fun _ => 100
    cashReserve := 50
    yearsTillRetirement := 7
    value := fun _ _ => 50
    availability := fun c _ => decide (c = INDIVIDUAL_INDEX) }

/-- C1 counterexample: on `cexShortfall`, year 0 satisfies the original
claim's continue condition (net expense ≤ distributable total + reserve,
while exceeding the distributable total), yet `calculateN` terminates at
year 0 with `fundLongevity = 0` and the reserve still intact — the code
breaks on equality instead of draining and continuing. -/
theorem shortfall_check_cex :
    netExpense (stateAtCheck cexShortfall 0) 0
        ≤ distributableTotal (stateAtCheck cexShortfall 0) 0
            + (stateAtCheck cexShortfall 0).cashReserve
    ∧ distributableTotal (stateAtCheck cexShortfall 0) 0
        < netExpense (stateAtCheck cexShortfall 0) 0
    ∧ (calculateN cexShortfall).fundLongevity = 0
    ∧ (calculateN cexShortfall).cashReserve = 50 := by
  refine ⟨?_, ?_, ?_, ?_⟩ <;> with_unfolding_all decide

/-- C1 witness: the amended break branch applied to `cexShortfall` at
year 0. -/
theorem shortfall_check_witness :
    0 < MAX_YEARS
    ∧ distributableTotal (stateAtCheck cexShortfall 0) 0
        < netExpense (stateAtCheck cexShortfall 0) 0
    ∧ distributableTotal (stateAtCheck cexShortfall 0) 0
        + (stateAtCheck cexShortfall 0).cashReserve
        ≤ netExpense (stateAtCheck cexShortfall 0) 0
    ∧ (calcLoop (49 + 1) 0 cexShortfall).fundLongevity = (0 : ℤ) :=
  ⟨by decide, by with_unfolding_all decide, by with_unfolding_all decide,
    ((shortfall_check 49 0 cexShortfall (by decide)).2
      (by with_unfolding_all decide) (by with_unfolding_all decide)).2⟩

/-! ## C6, C7: growth-curve population -/

/-- A fixed draw stream (every uniform draw returns 50). -/
def rng50 : ℕ → ℕ := fun _ => 50

/-- A state with a nonzero growth curve and nonzero average rates, used to
observe what an unrecognized selector does. -/
def cexPopState : AssetState :=
  { assetInit with
    growthRateAvg := fun _ => 0.2
    growthRate := fun _ _ => 1 / 2 }

lemma populateGrowthCurves_of_ne (o : ℤ) (rng : ℕ → ℕ) (s : AssetState)
    (h0 : o ≠ 0) :
    populateGrowthCurves o rng s
      = { s with
          growthRate := fun c n =>
            if n < MAX_YEARS then
              commonCurve o rng n *
                (if s.growthRateAvg c / STOCK_GROWTH_AVG ≤ 1 then
                  s.growthRateAvg c / STOCK_GROWTH_AVG
                 else 1)
            else s.growthRate c n } := by
  simp only [populateGrowthCurves]
  rw [if_neg h0, if_pos h0]

/-- C6 (amended): calling `populateGrowthCurves` with an unrecognized
scenario selector sets every growth rate (all accounts, all simulated
years) to zero — the zero-initialised common curve is scaled into every
account — and leaves every other component of the state unchanged; the
call returns normally (the source only prints a message to `stderr`), so
no distinct configuration-error failure reaches the caller. -/
theorem populate_unrecognized (o : ℤ) (rng : ℕ → ℕ) (s : AssetState)
    (h0 : o ≠ 0) (h1 : o ≠ 1) (h2 : o ≠ 2) :
    (∀ (c : Fin MAX_ACCOUNTS) (n : ℕ), n < MAX_YEARS →
        (populateGrowthCurves o rng s).growthRate c n = 0)
    ∧ (populateGrowthCurves o rng s).value = s.value
    ∧ (populateGrowthCurves o rng s).availability = s.availability
    ∧ (populateGrowthCurves o rng s).expense = s.expense
    ∧ (populateGrowthCurves o rng s).distribution = s.distribution
    ∧ (populateGrowthCurves o rng s).inflation = s.inflation
    ∧ (populateGrowthCurves o rng s).growthRateAvg = s.growthRateAvg
    ∧ (populateGrowthCurves o rng s).cashReserve = s.cashReserve
    ∧ (populateGrowthCurves o rng s).fundLongevity = s.fundLongevity
    ∧ (populateGrowthCurves o rng s).takehomeIncome = s.takehomeIncome
    ∧ (populateGrowthCurves o rng s).name = s.name
    ∧ (populateGrowthCurves o rng s).yearsTillRetirement = s.yearsTillRetirement := by
  rw [populateGrowthCurves_of_ne o rng s h0]
  refine ⟨fun c n hn => ?_, rfl, rfl, rfl, rfl, rfl, rfl, rfl, rfl, rfl, rfl, rfl⟩
  simp [commonCurve, h1, h2, hn]

/-- C6 counterexample: with the unrecognized selector `3`, on a state whose
growth curve is `1/2` everywhere, `populateGrowthCurves` completes normally
and produces the all-zero growth curve while changing nothing else — the
condition is silently defaulted to zero growth, not surfaced to the caller
as a failure (the member function returns `void` in the source; the only
output is a console message). -/
theorem populate_unrecognized_cex :
    (∀ (c : Fin MAX_ACCOUNTS) (n : ℕ), n < MAX_YEARS →
        (populateGrowthCurves 3 rng50 cexPopState).growthRate c n = 0)
    ∧ (populateGrowthCurves 3 rng50 cexPopState).value = cexPopState.value
    ∧ (populateGrowthCurves 3 rng50 cexPopState).growthRateAvg
        = cexPopState.growthRateAvg
    ∧ (populateGrowthCurves 3 rng50 cexPopState).fundLongevity
        = cexPopState.fundLongevity
    ∧ cexPopState.growthRate 0 0 = 1 / 2 := by
  refine ⟨fun c n hn => ?_, rfl, rfl, rfl, rfl⟩
  rw [populateGrowthCurves_of_ne 3 rng50 cexPopState (by norm_num)]
  simp [commonCurve, hn]

/-- C6 witness: the amended theorem applied at selector `3`. -/
theorem populate_unrecognized_witness :
    (3 : ℤ) ≠ 0
    ∧ (∀ (c : Fin MAX_ACCOUNTS) (n : ℕ), n < MAX_YEARS →
        (populateGrowthCurves 3 rng50 wState).growthRate c n = 0)
    ∧ (populateGrowthCurves 3 rng50 wState).value = wState.value :=
  ⟨by norm_num,
    (populate_unrecognized 3 rng50 wState (by norm_num) (by norm_num) (by norm_num)).1,
    (populate_unrecognized 3 rng50 wState (by norm_num) (by norm_num) (by norm_num)).2.1⟩

/-- C7: for every non-constant selector, every account and every simulated
year, the populated growth rate equals the common-curve value scaled by
`min(growthRateAvg / STOCK_GROWTH_AVG, 1)`; and whenever the account average
is nonnegative (the loader rejects negative averages), the magnitude of the
scaled rate never exceeds the magnitude of the common-curve value. -/
theorem populate_scaling (o : ℤ) (rng : ℕ → ℕ) (s : AssetState) (ho : o ≠ 0)
    (c : Fin MAX_ACCOUNTS) (n : ℕ) (hn : n < MAX_YEARS) :
    (populateGrowthCurves o rng s).growthRate c n
        = commonCurve o rng n * min (s.growthRateAvg c / STOCK_GROWTH_AVG) 1
    ∧ (0 ≤ s.growthRateAvg c →
        |(populateGrowthCurves o rng s).growthRate c n| ≤ |commonCurve o rng n|) := by
  have key : (populateGrowthCurves o rng s).growthRate c n
      = commonCurve o rng n *
          (if s.growthRateAvg c / STOCK_GROWTH_AVG ≤ 1 then
            s.growthRateAvg c / STOCK_GROWTH_AVG
           else 1) := by
    rw [populateGrowthCurves_of_ne o rng s ho]
    simp [hn]
  constructor
  · rw [key, min_def]
  · intro havg
    rw [key, abs_mul]
    have hr : 0 ≤ s.growthRateAvg c / STOCK_GROWTH_AVG :=
      div_nonneg havg (by norm_num [STOCK_GROWTH_AVG])
    have habs :
        |(if s.growthRateAvg c / STOCK_GROWTH_AVG ≤ 1 then
            s.growthRateAvg c / STOCK_GROWTH_AVG
          else 1)| ≤ 1 := by
      split_ifs with h
      · rw [abs_of_nonneg hr]; exact h
      · simp
    calc |commonCurve o rng n| *
          |(if s.growthRateAvg c / STOCK_GROWTH_AVG ≤ 1 then
              s.growthRateAvg c / STOCK_GROWTH_AVG
            else 1)|
        ≤ |commonCurve o rng n| * 1 :=
          mul_le_mul_of_nonneg_left habs (abs_nonneg _)
      _ = |commonCurve o rng n| := mul_one _

/-- C7 witness: the scaling bound on `wState` under the predefined-shock
selector at year 0. -/
theorem populate_scaling_witness :
    (0 : ℚ) ≤ wState.growthRateAvg 0
    ∧ (populateGrowthCurves 1 rng50 wState).growthRate 0 0
        = commonCurve 1 rng50 0 * min (wState.growthRateAvg 0 / STOCK_GROWTH_AVG) 1
    ∧ |(populateGrowthCurves 1 rng50 wState).growthRate 0 0|
        ≤ |commonCurve 1 rng50 0| :=
  ⟨by decide,
    (populate_scaling 1 rng50 wState (by norm_num) 0 0 (by norm_num)).1,
    (populate_scaling 1 rng50 wState (by norm_num) 0 0 (by norm_num)).2 (by decide)⟩

/-! ## C10: what `calculateN` never touches -/

/-- The components of the state that `calculateN` is claimed to leave
unchanged: names, the whole availability, growth-rate, average-growth and
inflation data, the retirement year, and every year-0 value. -/
def FramePreserved (t s : AssetState) : Prop :=
  t.name = s.name
  ∧ t.availability = s.availability
  ∧ t.growthRate = s.growthRate
  ∧ t.growthRateAvg = s.growthRateAvg
  ∧ t.inflation = s.inflation
  ∧ t.yearsTillRetirement = s.yearsTillRetirement
  ∧ ∀ c : Fin MAX_ACCOUNTS, t.value c 0 = s.value c 0

lemma framePreserved_trans {u t s : AssetState} (h1 : FramePreserved u t)
    (h2 : FramePreserved t s) : FramePreserved u s := by
  obtain ⟨a1, b1, c1, d1, e1, f1, g1⟩ := h1
  obtain ⟨a2, b2, c2, d2, e2, f2, g2⟩ := h2
  exact ⟨a1.trans a2, b1.trans b2, c1.trans c2, d1.trans d2, e1.trans e2,
    f1.trans f2, fun c => (g1 c).trans (g2 c)⟩

lemma framePreserved_fundLongevity (s : AssetState) (n : ℤ) :
    FramePreserved { s with fundLongevity := n } s :=
  ⟨rfl, rfl, rfl, rfl, rfl, rfl, fun _ => rfl⟩

lemma retirementStep_frame (s : AssetState) (i : ℕ) :
    FramePreserved (retirementStep s i) s := by
  unfold retirementStep
  split <;> exact ⟨rfl, rfl, rfl, rfl, rfl, rfl, fun _ => rfl⟩

lemma addCashReserve_frame (s : AssetState) (cash : ℚ) (a : Fin MAX_ACCOUNTS)
    (y : ℕ) (hy : y ≠ 0) : FramePreserved (addCashReserve s cash a y).2 s := by
  unfold addCashReserve
  split
  · exact ⟨rfl, rfl, rfl, rfl, rfl, rfl, fun c => by simp [Ne.symm hy]⟩
  · exact ⟨rfl, rfl, rfl, rfl, rfl, rfl, fun _ => rfl⟩

lemma drainReserve_frame (s : AssetState) (i : ℕ) :
    FramePreserved (drainReserve s i) s :=
  ⟨rfl, rfl, rfl, rfl, rfl, rfl, fun _ => rfl⟩

lemma cashPolicyStep_frame (s : AssetState) (i : ℕ) :
    FramePreserved (cashPolicyStep s i) s := by
  unfold cashPolicyStep
  split_ifs with h1 h2
  · exact drainReserve_frame s i
  · exact addCashReserve_frame s CASH_RESERVE INDIVIDUAL_INDEX i
      (Nat.pos_iff_ne_zero.mp h2.1)
  · exact ⟨rfl, rfl, rfl, rfl, rfl, rfl, fun _ => rfl⟩

lemma stateAtCheck_frame (s : AssetState) (i : ℕ) :
    FramePreserved (stateAtCheck s i) s :=
  framePreserved_trans (cashPolicyStep_frame (retirementStep s i) i)
    (retirementStep_frame s i)

lemma distGrowthStep_frame (s : AssetState) (i : ℕ) (net dtot : ℚ) :
    FramePreserved (distGrowthStep s i net dtot) s := by
  refine ⟨rfl, rfl, rfl, rfl, rfl, rfl, fun c => ?_⟩
  simp [distGrowthStep]

lemma contributionStep_frame (s : AssetState) (i : ℕ) (cind : ℚ) :
    FramePreserved (contributionStep s i cind) s := by
  unfold contributionStep
  split
  · exact ⟨rfl, rfl, rfl, rfl, rfl, rfl, fun c => by simp⟩
  · exact ⟨rfl, rfl, rfl, rfl, rfl, rfl, fun _ => rfl⟩

lemma expenseInflationStep_frame (s : AssetState) (i : ℕ) :
    FramePreserved (expenseInflationStep s i) s := by
  simp only [expenseInflationStep]
  split_ifs <;> exact ⟨rfl, rfl, rfl, rfl, rfl, rfl, fun _ => rfl⟩

lemma yearRest_frame (s : AssetState) (i : ℕ) (net dtot cind : ℚ) :
    FramePreserved (yearRest s i net dtot cind) s :=
  framePreserved_trans
    (framePreserved_trans
      (expenseInflationStep_frame (contributionStep (distGrowthStep s i net dtot) i cind) i)
      (contributionStep_frame (distGrowthStep s i net dtot) i cind))
    (distGrowthStep_frame s i net dtot)

lemma calcLoop_frame (fuel : ℕ) : ∀ (i : ℕ) (s : AssetState),
    FramePreserved (calcLoop fuel i s) s := by
  induction fuel with
  | zero => exact fun i s => framePreserved_fundLongevity s (i : ℤ)
  | succ fuel ih =>
    intro i s
    simp only [calcLoop]
    split_ifs with h1 h2 h3
    · exact framePreserved_trans (ih (i + 1) _)
        (framePreserved_trans (yearRest_frame _ i _ _ _)
          (framePreserved_trans (drainReserve_frame _ i) (stateAtCheck_frame s i)))
    · exact framePreserved_trans (framePreserved_fundLongevity _ (i : ℤ))
        (stateAtCheck_frame s i)
    · exact framePreserved_trans (ih (i + 1) _)
        (framePreserved_trans (yearRest_frame _ i _ _ _) (stateAtCheck_frame s i))
    · exact framePreserved_fundLongevity s (i : ℤ)

/-- C10: `calculateN` leaves the account names, the entire availability and
growth-rate sequences, the average growth rates, the inflation sequence,
the retirement year and every year-0 account value unchanged. -/
theorem calculateN_frame (s : AssetState) :
    (calculateN s).name = s.name
    ∧ (calculateN s).availability = s.availability
    ∧ (calculateN s).growthRate = s.growthRate
    ∧ (calculateN s).growthRateAvg = s.growthRateAvg
    ∧ (calculateN s).inflation = s.inflation
    ∧ (calculateN s).yearsTillRetirement = s.yearsTillRetirement
    ∧ ∀ c : Fin MAX_ACCOUNTS, (calculateN s).value c 0 = s.value c 0 :=
  calcLoop_frame MAX_YEARS 0 s

/-! ## C4: proportional distribution -/

lemma netExpense_nonneg (s : AssetState) (i : ℕ) : 0 ≤ netExpense s i := by
  unfold netExpense
  split_ifs with h
  · exact le_refl 0
  · exact le_of_not_lt h

/-- C4: for a year processed past the shortfall check (the check passed, and
under well-formed inputs: the cash reserve is zero — as it is in every
program run, `CASH_RESERVE = 0` — the distributable total is positive, and
this-year values are nonnegative), the distribution percentage
`netExpense / distributableTotal` is a fraction in `[0, 1]`; every available
account withdraws `value * percentage`, every unavailable account withdraws
`0`, and hence `distribution[c][i] ≤ value[c][i]` for every account. -/
theorem proportional_distribution (s : AssetState) (i : ℕ) (c : Fin MAX_ACCOUNTS)
    (hval : ∀ a : Fin MAX_ACCOUNTS, 0 ≤ s.value a i)
    (hres : s.cashReserve = 0)
    (hpass : netExpense s i ≤ distributableTotal s i
      ∨ netExpense s i < distributableTotal s i + s.cashReserve)
    (hd : 0 < distributableTotal s i) :
    0 ≤ netExpense s i / distributableTotal s i
    ∧ netExpense s i / distributableTotal s i ≤ 1
    ∧ (s.availability c i = true →
        (distGrowthStep s i (netExpense s i) (distributableTotal s i)).distribution c i
          = s.value c i * (netExpense s i / distributableTotal s i))
    ∧ (s.availability c i = false →
        (distGrowthStep s i (netExpense s i) (distributableTotal s i)).distribution c i
          = 0)
    ∧ (distGrowthStep s i (netExpense s i) (distributableTotal s i)).distribution c i
        ≤ s.value c i := by
  have hnet : netExpense s i ≤ distributableTotal s i := by
    rcases hpass with h | h
    · exact h
    · rw [hres, add_zero] at h
      exact h.le
  have h0 : 0 ≤ netExpense s i / distributableTotal s i :=
    div_nonneg (netExpense_nonneg s i) hd.le
  have h1 : netExpense s i / distributableTotal s i ≤ 1 :=
    (div_le_one hd).mpr hnet
  refine ⟨h0, h1, fun hav => by simp [distGrowthStep, hav], fun hav => by
    simp [distGrowthStep, hav], ?_⟩
  cases hav : s.availability c i with
  | false => simpa [distGrowthStep, hav] using hval c
  | true =>
    have : s.value c i * (netExpense s i / distributableTotal s i)
        ≤ s.value c i * 1 := mul_le_mul_of_nonneg_left h1 (hval c)
    simpa [distGrowthStep, hav] using this

/-- A state with every account available and holding 10, expense 20:
the distribution percentage is 1/2. -/
def wAvailState : AssetState :=
  { assetInit with
    value := fun _ _ => 10
    availability := fun _ _ => true
    expense := fun _ => 20 }

/-- C4 witness: the proportional-distribution bounds instantiated on
`wAvailState` at year 0, account 0. -/
theorem proportional_distribution_witness :
    (0 : ℚ) < distributableTotal wAvailState 0
    ∧ netExpense wAvailState 0 ≤ distributableTotal wAvailState 0
    ∧ (distGrowthStep wAvailState 0 (netExpense wAvailState 0)
        (distributableTotal wAvailState 0)).distribution 0 0
        ≤ wAvailState.value 0 0 :=
  ⟨by with_unfolding_all decide, by with_unfolding_all decide,
    (proportional_distribution wAvailState 0 0
      (by decide : ∀ a : Fin MAX_ACCOUNTS, 0 ≤ wAvailState.value a 0) rfl
      (Or.inl (by with_unfolding_all decide))
      (by with_unfolding_all decide)).2.2.2.2⟩

/-! ## C8: the randomized recession scenario always shocks year 0 -/

lemma updN_ne (f : ℕ → ℚ) (n : ℕ) (v : ℚ) (j : ℕ) (h : j ≠ n) :
    updN f n v j = f j :=
  if_neg h

lemma updN_self (f : ℕ → ℚ) (n : ℕ) (v : ℚ) : updN f n v n = v :=
  if_pos rfl

lemma recLoop_fst_at_zero (rng : ℕ → ℕ) : ∀ (fuel : ℕ) (g : ℕ → ℚ)
    (n k rrsum : ℕ), 1 ≤ n → ((recLoop rng fuel g n k rrsum).1) 0 = g 0 := by
  intro fuel
  induction fuel with
  | zero => intro g n k r _; rfl
  | succ fuel ih =>
    intro g n k r hn
    simp only [recLoop, show RECOVERY_INT_MAX - RECOVERY_INT_MIN = 3 from rfl,
      show RECESSION_INT_MAX - RECESSION_INT_MIN = 3 from rfl,
      show RECOVERY_INT_MIN = 1 from rfl, show RECESSION_INT_MIN = 8 from rfl,
      show MAX_YEARS = 50 from rfl]
    split_ifs with h1 h2 h3
    · exact updN_ne _ _ _ _ (by omega)
    · exact (updN_ne _ _ _ _ (by omega)).trans (updN_ne _ _ _ _ (by omega))
    · exact (ih _ _ _ _ (by omega)).trans
        ((updN_ne _ _ _ _ (by omega)).trans
          ((updN_ne _ _ _ _ (by omega)).trans (updN_ne _ _ _ _ (by omega))))
    · rfl

lemma fillLoop_preserve_ne_zero (rng : ℕ → ℕ) (ravg : ℚ) : ∀ (fuel n k : ℕ)
    (g : ℕ → ℚ) (j : ℕ), g j ≠ 0 → fillLoop rng ravg fuel n k g j = g j := by
  intro fuel
  induction fuel with
  | zero => intro n k g j _; rfl
  | succ fuel ih =>
    intro n k g j hj
    simp only [fillLoop]
    split_ifs with h1 h2
    · have hjn : j ≠ n := fun e => hj (by rw [e, h2])
      have hupd : updN g n
          ((ravg - STOCK_AVG_SPAN_HALF) +
            (rng k : ℚ) / (RANDOM_NUM_MAX : ℚ) * STOCK_AVG_SPAN) j = g j := by
        simp [updN, hjn]
      rw [ih _ _ _ _ (by rw [hupd]; exact hj), hupd]
    · exact ih _ _ _ _ hj
    · rfl

/-- The first iteration of the recession loop starting at year 0 writes the
drawn severity into year 0, and no later write of the loop touches year 0. -/
lemma recLoop_first (rng : ℕ → ℕ) (fuel k rrsum : ℕ) (g : ℕ → ℚ) :
    ((recLoop rng (fuel + 1) g 0 k rrsum).1) 0
      = RECESSION_MIN +
          ((rng k : ℚ) / (RANDOM_NUM_MAX : ℚ)) * (RECESSION_MAX - RECESSION_MIN) := by
  have hmod : rng (k + 1) % 3 < 3 := Nat.mod_lt _ (by norm_num)
  simp only [recLoop, show RECOVERY_INT_MAX - RECOVERY_INT_MIN = 3 from rfl,
    show RECESSION_INT_MAX - RECESSION_INT_MIN = 3 from rfl,
    show RECOVERY_INT_MIN = 1 from rfl, show RECESSION_INT_MIN = 8 from rfl,
    show MAX_YEARS = 50 from rfl]
  split_ifs with h1 h2 h3
  · exact absurd h2 (by omega)
  · exact absurd h3 (by omega)
  · exact (recLoop_fst_at_zero rng fuel _ _ _ _ (by omega)).trans
      ((updN_ne _ _ _ _ (by omega)).trans
        ((updN_ne _ _ _ _ (by omega)).trans (updN_self _ _ _)))
  · exact absurd h1 (by omega)

/-- C8: for every draw stream within the uniform range
`[RANDOM_NUM_MIN, RANDOM_NUM_MAX]`, the randomized recession scenario places
the first recession at year 0 (the start draw reduced modulo
`RECESSION_START_MOD = 1` is always 0), and the final common curve at year 0
is the drawn severity `RECESSION_MIN + (draw/100) * (RECESSION_MAX -
RECESSION_MIN)`, which lies in the fixed negative interval
`(RECESSION_MIN, RECESSION_MAX]`. -/
theorem scenario_recession_year0 (rng : ℕ → ℕ)
    (hb : ∀ j, RANDOM_NUM_MIN ≤ rng j ∧ rng j ≤ RANDOM_NUM_MAX) :
    rng 0 % RECESSION_START_MOD = 0
    ∧ scenarioRecessionRandomized rng 0
        = RECESSION_MIN +
            ((rng 1 : ℚ) / (RANDOM_NUM_MAX : ℚ)) * (RECESSION_MAX - RECESSION_MIN)
    ∧ RECESSION_MIN < scenarioRecessionRandomized rng 0
    ∧ scenarioRecessionRandomized rng 0 ≤ RECESSION_MAX
    ∧ scenarioRecessionRandomized rng 0 < 0 := by
  have hmod : rng 0 % RECESSION_START_MOD = 0 := Nat.mod_one _
  have h1 : (1 : ℚ) ≤ (rng 1 : ℚ) := by exact_mod_cast (hb 1).1
  have h100 : (rng 1 : ℚ) ≤ 100 := by exact_mod_cast (hb 1).2
  have hrate : RECESSION_MIN +
      ((rng 1 : ℚ) / (RANDOM_NUM_MAX : ℚ)) * (RECESSION_MAX - RECESSION_MIN)
      ≤ RECESSION_MAX := by
    rw [RECESSION_MIN, RECESSION_MAX]
    push_cast
    nlinarith
  have hrate2 : RECESSION_MIN < RECESSION_MIN +
      ((rng 1 : ℚ) / (RANDOM_NUM_MAX : ℚ)) * (RECESSION_MAX - RECESSION_MIN) := by
    rw [RECESSION_MIN, RECESSION_MAX]
    push_cast
    nlinarith
  have hneg : RECESSION_MIN +
      ((rng 1 : ℚ) / (RANDOM_NUM_MAX : ℚ)) * (RECESSION_MAX - RECESSION_MIN) < 0 :=
    lt_of_le_of_lt hrate (by rw [RECESSION_MAX]; norm_num)
  have key : scenarioRecessionRandomized rng 0
      = RECESSION_MIN +
          ((rng 1 : ℚ) / (RANDOM_NUM_MAX : ℚ)) * (RECESSION_MAX - RECESSION_MIN) := by
    simp only [scenarioRecessionRandomized, hmod]
    have hfuel : MAX_YEARS = 49 + 1 := rfl
    rw [hfuel]
    have hg0 : ((recLoop rng (49 + 1) (fun _ => 0) 0 1 0).1) 0
        = RECESSION_MIN +
            ((rng 1 : ℚ) / (RANDOM_NUM_MAX : ℚ)) * (RECESSION_MAX - RECESSION_MIN) :=
      recLoop_first rng 49 1 0 (fun _ => 0)
    rw [fillLoop_preserve_ne_zero rng _ _ _ _ _ _ (by rw [hg0]; exact ne_of_lt hneg),
      hg0]
  exact ⟨hmod, key, by rw [key]; exact hrate2, by rw [key]; exact hrate,
    by rw [key]; exact hneg⟩

/-- C8 witness: the year-0 recession property for the constant draw
stream 50. -/
theorem scenario_recession_year0_witness :
    (∀ j, RANDOM_NUM_MIN ≤ rng50 j ∧ rng50 j ≤ RANDOM_NUM_MAX)
    ∧ scenarioRecessionRandomized rng50 0 < 0 :=
  ⟨fun _ => ⟨by norm_num [rng50], by norm_num [rng50]⟩,
    (scenario_recession_year0 rng50
      (fun _ => ⟨by norm_num [rng50], by norm_num [rng50]⟩)).2.2.2.2⟩

/-! ## C3: the no-growth, no-inflation, no-income longevity formula

Helper lemmas computing one loop iteration under the degenerate parameters
(all growth and inflation rates zero, no income, no contributions, no
reserve). -/

lemma retirementStep_eq_self (s : AssetState) (i : ℕ)
    (htk : s.takehomeIncome = 0) (hcr : s.contributionRoth = 0)
    (hci : s.contributionIra = 0) (hck : s.contributionR401k = 0) :
    retirementStep s i = s := by
  unfold retirementStep
  split
  · exact AssetState.ext rfl rfl rfl rfl rfl htk.symm hcr.symm hci.symm hck.symm
      rfl rfl rfl rfl rfl rfl
  · rfl

lemma cashPolicyStep_eq_self (s : AssetState) (i : ℕ)
    (hres : s.cashReserve = 0)
    (hg0 : ∀ n, n < MAX_YEARS → s.growthRate INDIVIDUAL_INDEX n = 0)
    (hi : i < MAX_YEARS) :
    cashPolicyStep s i = s := by
  unfold cashPolicyStep
  split_ifs with h1 h2
  · rw [hres] at h1
    exact absurd h1.2.2 (lt_irrefl 0)
  · rw [hg0 (i - 1) (by omega)] at h2
    exact absurd h2.2.1 (lt_irrefl 0)
  · rfl

lemma stateAtCheck_eq_self (s : AssetState) (i : ℕ)
    (htk : s.takehomeIncome = 0) (hcr : s.contributionRoth = 0)
    (hci : s.contributionIra = 0) (hck : s.contributionR401k = 0)
    (hres : s.cashReserve = 0)
    (hg0 : ∀ n, n < MAX_YEARS → s.growthRate INDIVIDUAL_INDEX n = 0)
    (hi : i < MAX_YEARS) :
    stateAtCheck s i = s := by
  unfold stateAtCheck
  rw [retirementStep_eq_self s i htk hcr hci hck,
    cashPolicyStep_eq_self s i hres hg0 hi]

lemma netExpense_eq_expense (s : AssetState) (i : ℕ)
    (htk : s.takehomeIncome = 0) (hE : 0 ≤ s.expense i) :
    netExpense s i = s.expense i := by
  unfold netExpense
  rw [htk, sub_zero, if_neg (not_lt.mpr hE)]

lemma contributionIndividual_eq_zero (s : AssetState) (i : ℕ)
    (htk : s.takehomeIncome = 0) (hE : 0 ≤ s.expense i) :
    contributionIndividual s i = 0 := by
  unfold contributionIndividual
  rw [htk, zero_sub]
  split_ifs with h
  · rfl
  · have : s.expense i = 0 := le_antisymm (by linarith [not_lt.mp h]) hE
    rw [this, neg_zero]

lemma distributableTotal_all_avail (s : AssetState) (i : ℕ)
    (hav : ∀ c : Fin MAX_ACCOUNTS, s.availability c i = true) :
    distributableTotal s i = totalValue s i := by
  unfold distributableTotal totalValue
  rw [hav 0, hav 1, hav 2, hav 3]
  simp

lemma distributableTotal_le_totalValue (s : AssetState) (i : ℕ)
    (hval : ∀ c : Fin MAX_ACCOUNTS, 0 ≤ s.value c i) :
    distributableTotal s i ≤ totalValue s i := by
  unfold distributableTotal totalValue
  gcongr <;> split
  · exact le_refl _
  · exact hval 0
  · exact le_refl _
  · exact hval 1
  · exact le_refl _
  · exact hval 2
  · exact le_refl _
  · exact hval 3

lemma distGrowthStep_expense (s : AssetState) (i : ℕ) (net dtot : ℚ) :
    (distGrowthStep s i net dtot).expense = s.expense := rfl

lemma distGrowthStep_inflation (s : AssetState) (i : ℕ) (net dtot : ℚ) :
    (distGrowthStep s i net dtot).inflation = s.inflation := rfl

lemma distGrowthStep_value_next (s : AssetState) (i : ℕ) (net dtot : ℚ)
    (c : Fin MAX_ACCOUNTS) (hii : i + 1 < MAX_YEARS) :
    (distGrowthStep s i net dtot).value c (i + 1)
      = (s.value c i -
          (if s.availability c i = true then s.value c i * (net / dtot) else 0))
        * (1 + s.growthRate c i) := by
  simp only [distGrowthStep]
  simp [hii]

lemma contributionStep_cashReserve (s : AssetState) (i : ℕ) (cind : ℚ) :
    (contributionStep s i cind).cashReserve = s.cashReserve := by
  unfold contributionStep
  split <;> rfl

lemma contributionStep_expense (s : AssetState) (i : ℕ) (cind : ℚ) :
    (contributionStep s i cind).expense = s.expense := by
  unfold contributionStep
  split <;> rfl

lemma contributionStep_inflation (s : AssetState) (i : ℕ) (cind : ℚ) :
    (contributionStep s i cind).inflation = s.inflation := by
  unfold contributionStep
  split <;> rfl

lemma contributionStep_takehome_zero (s : AssetState) (i : ℕ) (cind : ℚ)
    (htk : s.takehomeIncome = 0) :
    (contributionStep s i cind).takehomeIncome = 0 := by
  unfold contributionStep
  split <;> simp [htk]

lemma contributionStep_roth_zero (s : AssetState) (i : ℕ) (cind : ℚ)
    (hcr : s.contributionRoth = 0) :
    (contributionStep s i cind).contributionRoth = 0 := by
  unfold contributionStep
  split <;> simp [hcr]

lemma contributionStep_ira_zero (s : AssetState) (i : ℕ) (cind : ℚ)
    (hci : s.contributionIra = 0) :
    (contributionStep s i cind).contributionIra = 0 := by
  unfold contributionStep
  split <;> simp [hci]

lemma contributionStep_r401k_zero (s : AssetState) (i : ℕ) (cind : ℚ)
    (hck : s.contributionR401k = 0) :
    (contributionStep s i cind).contributionR401k = 0 := by
  unfold contributionStep
  split <;> simp [hck]

lemma contributionStep_value_zero (s : AssetState) (i : ℕ)
    (hcr : s.contributionRoth = 0) (hci : s.contributionIra = 0)
    (hck : s.contributionR401k = 0) :
    (contributionStep s i 0).value = s.value := by
  unfold contributionStep
  split
  · funext c j
    by_cases hj : j = i + 1
    · simp [hj, hcr, hci, hck]
    · simp [hj]
  · rfl

lemma expenseInflationStep_value (s : AssetState) (i : ℕ) :
    (expenseInflationStep s i).value = s.value := by
  simp only [expenseInflationStep]
  split_ifs <;> rfl

lemma expenseInflationStep_takehome (s : AssetState) (i : ℕ) :
    (expenseInflationStep s i).takehomeIncome = s.takehomeIncome := by
  simp only [expenseInflationStep]
  split_ifs <;> rfl

lemma expenseInflationStep_roth (s : AssetState) (i : ℕ) :
    (expenseInflationStep s i).contributionRoth = s.contributionRoth := by
  simp only [expenseInflationStep]
  split_ifs <;> rfl

lemma expenseInflationStep_ira (s : AssetState) (i : ℕ) :
    (expenseInflationStep s i).contributionIra = s.contributionIra := by
  simp only [expenseInflationStep]
  split_ifs <;> rfl

lemma expenseInflationStep_r401k (s : AssetState) (i : ℕ) :
    (expenseInflationStep s i).contributionR401k = s.contributionR401k := by
  simp only [expenseInflationStep]
  split_ifs <;> rfl

lemma expenseInflationStep_cashReserve_zero (s : AssetState) (i : ℕ)
    (hres : s.cashReserve = 0) :
    (expenseInflationStep s i).cashReserve = 0 := by
  simp only [expenseInflationStep]
  split_ifs <;> simp_all

lemma expenseInflationStep_expense_next (s : AssetState) (i : ℕ)
    (hii : i + 1 < MAX_YEARS) :
    (expenseInflationStep s i).expense (i + 1)
      = s.expense i * (1 + s.inflation i) := by
  simp only [expenseInflationStep]
  rw [if_pos hii]
  split_ifs <;> simp

lemma yearRest_takehome (s : AssetState) (i : ℕ) (net dtot cind : ℚ)
    (htk : s.takehomeIncome = 0) :
    (yearRest s i net dtot cind).takehomeIncome = 0 := by
  unfold yearRest
  rw [expenseInflationStep_takehome, contributionStep_takehome_zero]
  exact htk

lemma yearRest_contributionRoth (s : AssetState) (i : ℕ) (net dtot cind : ℚ)
    (hcr : s.contributionRoth = 0) :
    (yearRest s i net dtot cind).contributionRoth = 0 := by
  unfold yearRest
  rw [expenseInflationStep_roth, contributionStep_roth_zero]
  exact hcr

lemma yearRest_contributionIra (s : AssetState) (i : ℕ) (net dtot cind : ℚ)
    (hci : s.contributionIra = 0) :
    (yearRest s i net dtot cind).contributionIra = 0 := by
  unfold yearRest
  rw [expenseInflationStep_ira, contributionStep_ira_zero]
  exact hci

lemma yearRest_contributionR401k (s : AssetState) (i : ℕ) (net dtot cind : ℚ)
    (hck : s.contributionR401k = 0) :
    (yearRest s i net dtot cind).contributionR401k = 0 := by
  unfold yearRest
  rw [expenseInflationStep_r401k, contributionStep_r401k_zero]
  exact hck

lemma yearRest_cashReserve (s : AssetState) (i : ℕ) (net dtot cind : ℚ)
    (hres : s.cashReserve = 0) :
    (yearRest s i net dtot cind).cashReserve = 0 := by
  unfold yearRest
  rw [expenseInflationStep_cashReserve_zero]
  rw [contributionStep_cashReserve]
  exact hres

lemma yearRest_expense_next (s : AssetState) (i : ℕ) (net dtot cind : ℚ)
    (hii : i + 1 < MAX_YEARS) (hinfi : s.inflation i = 0) :
    (yearRest s i net dtot cind).expense (i + 1) = s.expense i := by
  unfold yearRest
  rw [expenseInflationStep_expense_next _ _ hii, contributionStep_expense,
    contributionStep_inflation, distGrowthStep_expense, distGrowthStep_inflation,
    hinfi, add_zero, mul_one]

lemma yearRest_value_next (s : AssetState) (i : ℕ) (net dtot : ℚ)
    (c : Fin MAX_ACCOUNTS) (hii : i + 1 < MAX_YEARS)
    (hgc : s.growthRate c i = 0)
    (hcr : s.contributionRoth = 0) (hci : s.contributionIra = 0)
    (hck : s.contributionR401k = 0) :
    (yearRest s i net dtot 0).value c (i + 1)
      = s.value c i -
          (if s.availability c i = true then s.value c i * (net / dtot) else 0) := by
  unfold yearRest
  rw [expenseInflationStep_value,
    contributionStep_value_zero (distGrowthStep s i net dtot) i
      (by exact hcr) (by exact hci) (by exact hck),
    distGrowthStep_value_next _ _ _ _ _ hii, hgc, add_zero, mul_one]

/-- With zero growth and no contributions, one distribution round removes
exactly `net` from the total portfolio value (the proportional withdrawals
sum to `dtot * (net / dtot) = net`). -/
lemma totalValue_after (s : AssetState) (i : ℕ) (net dtot : ℚ)
    (hdt : dtot = distributableTotal s i) (hii : i + 1 < MAX_YEARS)
    (hd : 0 < dtot)
    (hg : ∀ c : Fin MAX_ACCOUNTS, s.growthRate c i = 0)
    (hcr : s.contributionRoth = 0) (hci : s.contributionIra = 0)
    (hck : s.contributionR401k = 0) :
    totalValue (yearRest s i net dtot 0) (i + 1) = totalValue s i - net := by
  rw [totalValue,
    yearRest_value_next s i _ _ 0 hii (hg 0) hcr hci hck,
    yearRest_value_next s i _ _ 1 hii (hg 1) hcr hci hck,
    yearRest_value_next s i _ _ 2 hii (hg 2) hcr hci hck,
    yearRest_value_next s i _ _ 3 hii (hg 3) hcr hci hck]
  have hfac : ∀ (b : Bool) (v : ℚ),
      (if b = true then v * (net / dtot) else 0)
        = (if b = true then v else 0) * (net / dtot) := by
    intro b v
    cases b <;> simp
  rw [hfac, hfac, hfac, hfac]
  have hcancel : ((if s.availability 0 i = true then s.value 0 i else 0) +
      (if s.availability 1 i = true then s.value 1 i else 0) +
      (if s.availability 2 i = true then s.value 2 i else 0) +
      (if s.availability 3 i = true then s.value 3 i else 0)) * (net / dtot)
        = net := by
    rw [show ((if s.availability 0 i = true then s.value 0 i else 0) +
        (if s.availability 1 i = true then s.value 1 i else 0) +
        (if s.availability 2 i = true then s.value 2 i else 0) +
        (if s.availability 3 i = true then s.value 3 i else 0))
          = distributableTotal s i from rfl,
      ← hdt, mul_comm, div_mul_cancel₀ _ (ne_of_gt hd)]
  calc (s.value 0 i - (if s.availability 0 i = true then s.value 0 i else 0) * (net / dtot))
        + (s.value 1 i - (if s.availability 1 i = true then s.value 1 i else 0) * (net / dtot))
        + (s.value 2 i - (if s.availability 2 i = true then s.value 2 i else 0) * (net / dtot))
        + (s.value 3 i - (if s.availability 3 i = true then s.value 3 i else 0) * (net / dtot))
      = (s.value 0 i + s.value 1 i + s.value 2 i + s.value 3 i)
        - ((if s.availability 0 i = true then s.value 0 i else 0) +
            (if s.availability 1 i = true then s.value 1 i else 0) +
            (if s.availability 2 i = true then s.value 2 i else 0) +
            (if s.availability 3 i = true then s.value 3 i else 0)) * (net / dtot) := by
        ring
    _ = totalValue s i - net := by rw [hcancel, totalValue]

/-- The depletion invariant: starting the loop at year `i` with degenerate
parameters and every later year fully available, the fund lasts exactly to
`min(i + floor(total_i / expense_i), MAX_YEARS)`. -/
lemma calcLoop_noGrowth : ∀ (fuel i : ℕ) (s : AssetState),
    fuel + i = MAX_YEARS → i < MAX_YEARS →
    (∀ (c : Fin MAX_ACCOUNTS) (n : ℕ), n < MAX_YEARS → s.growthRate c n = 0) →
    (∀ n, n < MAX_YEARS → s.inflation n = 0) →
    s.takehomeIncome = 0 → s.contributionRoth = 0 → s.contributionIra = 0 →
    s.contributionR401k = 0 → s.cashReserve = 0 →
    (∀ (c : Fin MAX_ACCOUNTS) (n : ℕ), i ≤ n → n < MAX_YEARS →
      s.availability c n = true) →
    0 < s.expense i → 0 ≤ totalValue s i →
    (calcLoop fuel i s).fundLongevity
      = min ((i : ℤ) + ⌊totalValue s i / s.expense i⌋) (MAX_YEARS : ℤ) := by
  intro fuel
  induction fuel with
  | zero =>
    intro i s hfi hi
    exact absurd hfi (by omega)
  | succ fuel ih =>
    intro i s hfi hi hg hinf htk hcr hci hck hres hav hE hT
    have havi : ∀ c : Fin MAX_ACCOUNTS, s.availability c i = true :=
      fun c => hav c i (le_refl i) hi
    rw [calcLoop_succ fuel i s hi,
      stateAtCheck_eq_self s i htk hcr hci hck hres
        (fun n hn => hg INDIVIDUAL_INDEX n hn) hi,
      distributableTotal_all_avail s i havi,
      netExpense_eq_expense s i htk hE.le,
      contributionIndividual_eq_zero s i htk hE.le]
    by_cases hcase : totalValue s i < s.expense i
    · rw [if_pos hcase, hres, add_zero, if_neg (not_lt.mpr hcase.le)]
      have hfl : ⌊totalValue s i / s.expense i⌋ = 0 := by
        rw [Int.floor_eq_zero_iff]
        exact Set.mem_Ico.mpr ⟨div_nonneg hT hE.le, (div_lt_one hE).mpr hcase⟩
      show (i : ℤ) = min ((i : ℤ) + ⌊totalValue s i / s.expense i⌋) (MAX_YEARS : ℤ)
      rw [hfl, add_zero]
      omega
    · rw [if_neg hcase]
      push_neg at hcase
      have h1le : (1 : ℤ) ≤ ⌊totalValue s i / s.expense i⌋ := by
        rw [Int.le_floor]
        push_cast
        exact (one_le_div hE).mpr hcase
      rcases Nat.eq_zero_or_pos fuel with hf0 | hfpos
      · subst hf0
        have hi49 : i = MAX_YEARS - 1 := by omega
        show ((i + 1 : ℕ) : ℤ)
            = min ((i : ℤ) + ⌊totalValue s i / s.expense i⌋) (MAX_YEARS : ℤ)
        subst hi49
        simp only [show MAX_YEARS - 1 = 49 from rfl,
          show ((MAX_YEARS : ℕ) : ℤ) = 50 from rfl] at h1le ⊢
        push_cast
        omega
      · have hii : i + 1 < MAX_YEARS := by omega
        have hd : (0 : ℚ) < totalValue s i := lt_of_lt_of_le hE hcase
        have hdt : totalValue s i = distributableTotal s i :=
          (distributableTotal_all_avail s i havi).symm
        have hTafter :
            totalValue (yearRest s i (s.expense i) (totalValue s i) 0) (i + 1)
              = totalValue s i - s.expense i :=
          totalValue_after s i (s.expense i) (totalValue s i) hdt hii hd
            (fun c => hg c i hi) hcr hci hck
        have hEafter :
            (yearRest s i (s.expense i) (totalValue s i) 0).expense (i + 1)
              = s.expense i :=
          yearRest_expense_next s i _ _ 0 hii (hinf i hi)
        obtain ⟨-, havf, hgf, -, hinff, -, -⟩ :=
          yearRest_frame s i (s.expense i) (totalValue s i) 0
        rw [ih (i + 1) (yearRest s i (s.expense i) (totalValue s i) 0)
          (by omega) hii
          (fun c n hn => by rw [hgf]; exact hg c n hn)
          (fun n hn => by rw [hinff]; exact hinf n hn)
          (yearRest_takehome s i _ _ _ htk)
          (yearRest_contributionRoth s i _ _ _ hcr)
          (yearRest_contributionIra s i _ _ _ hci)
          (yearRest_contributionR401k s i _ _ _ hck)
          (yearRest_cashReserve s i _ _ _ hres)
          (fun c n h1 h2 => by rw [havf]; exact hav c n (by omega) h2)
          (by rw [hEafter]; exact hE)
          (by rw [hTafter]; exact sub_nonneg.mpr hcase)]
        rw [hTafter, hEafter]
        have hdivshift : (totalValue s i - s.expense i) / s.expense i
            = totalValue s i / s.expense i - 1 := by
          rw [sub_div, div_self (ne_of_gt hE)]
        rw [hdivshift, ← Int.cast_one, Int.floor_sub_int]
        push_cast
        omega

/-- C3 (amended): for every state with all growth rates zero, all inflation
rates zero, zero takehome income, zero contributions and zero cash reserve,
in which every account is available from year 1 on, year-0 values are
nonnegative, the initial expense is positive, and the year-0 distributable
total covers the initial expense, `calculateN` yields
`fundLongevity = min(floor(totalInitialValue / expense), MAX_YEARS)`.
(The original claim quantified over every initial state; without the
availability and year-0 coverage conditions it fails — see the
counterexample.) -/
theorem calculateN_noGrowth (s : AssetState)
    (hg : ∀ (c : Fin MAX_ACCOUNTS) (n : ℕ), n < MAX_YEARS → s.growthRate c n = 0)
    (hinf : ∀ n, n < MAX_YEARS → s.inflation n = 0)
    (htk : s.takehomeIncome = 0) (hcr : s.contributionRoth = 0)
    (hci : s.contributionIra = 0) (hck : s.contributionR401k = 0)
    (hres : s.cashReserve = 0)
    (hav : ∀ (c : Fin MAX_ACCOUNTS) (n : ℕ), n < MAX_YEARS → 1 ≤ n →
      s.availability c n = true)
    (hval : ∀ c : Fin MAX_ACCOUNTS, 0 ≤ s.value c 0)
    (hE : 0 < s.expense 0)
    (hd0 : s.expense 0 ≤ distributableTotal s 0) :
    (calculateN s).fundLongevity
      = min ⌊totalValue s 0 / s.expense 0⌋ (MAX_YEARS : ℤ) := by
  have h50 : MAX_YEARS = 49 + 1 := rfl
  show (calcLoop MAX_YEARS 0 s).fundLongevity = _
  rw [h50, calcLoop_succ 49 0 s (by norm_num),
    stateAtCheck_eq_self s 0 htk hcr hci hck hres
      (fun n hn => hg INDIVIDUAL_INDEX n hn) (by norm_num),
    netExpense_eq_expense s 0 htk hE.le,
    contributionIndividual_eq_zero s 0 htk hE.le,
    if_neg (not_lt.mpr hd0)]
  have hd : 0 < distributableTotal s 0 := lt_of_lt_of_le hE hd0
  have hTafter :
      totalValue (yearRest s 0 (s.expense 0) (distributableTotal s 0) 0) (0 + 1)
        = totalValue s 0 - s.expense 0 :=
    totalValue_after s 0 (s.expense 0) (distributableTotal s 0) rfl (by norm_num)
      hd (fun c => hg c 0 (by norm_num)) hcr hci hck
  have hEafter :
      (yearRest s 0 (s.expense 0) (distributableTotal s 0) 0).expense (0 + 1)
        = s.expense 0 :=
    yearRest_expense_next s 0 _ _ 0 (by norm_num) (hinf 0 (by norm_num))
  have hET : s.expense 0 ≤ totalValue s 0 :=
    le_trans hd0 (distributableTotal_le_totalValue s 0 hval)
  obtain ⟨-, havf, hgf, -, hinff, -, -⟩ :=
    yearRest_frame s 0 (s.expense 0) (distributableTotal s 0) 0
  rw [calcLoop_noGrowth 49 (0 + 1)
    (yearRest s 0 (s.expense 0) (distributableTotal s 0) 0)
    (by norm_num) (by norm_num)
    (fun c n hn => by rw [hgf]; exact hg c n hn)
    (fun n hn => by rw [hinff]; exact hinf n hn)
    (yearRest_takehome s 0 _ _ _ htk)
    (yearRest_contributionRoth s 0 _ _ _ hcr)
    (yearRest_contributionIra s 0 _ _ _ hci)
    (yearRest_contributionR401k s 0 _ _ _ hck)
    (yearRest_cashReserve s 0 _ _ _ hres)
    (fun c n h1 h2 => by rw [havf]; exact hav c n h2 (by omega))
    (by rw [hEafter]; exact hE)
    (by rw [hTafter]; exact sub_nonneg.mpr hET),
    hTafter, hEafter]
  have hdivshift : (totalValue s 0 - s.expense 0) / s.expense 0
      = totalValue s 0 / s.expense 0 - 1 := by
    rw [sub_div, div_self (ne_of_gt hE)]
  rw [hdivshift, ← Int.cast_one, Int.floor_sub_int]
  push_cast
  omega

/-- A profile holding the whole 50,000 in the Roth account, everything else
zero, retirement immediate, expense 1000. -/
def cexUser : UserData where
  name := fun _ => ""
  value := fun c => if c = ROTH_INDEX then 50000 else 0
  rate := fun _ => 0
  initialExpense := 1000
  takehomeIncome := 0
  contributionRoth := 0
  contributionIra := 0
  contributionR401k := 0
  initialInflation := 0
  yearsTillRetirement := 0

/-- The simulation state built from `cexUser` by the standard initializer. -/
def cexNoGrowthState : AssetState :=
  initializeFromUserData cexUser assetInit

/-- C3 counterexample: an initial state with zero growth, inflation, income
and contributions, total initial value 50,000 and expense 1,000, whose
fund longevity is 0 — not `min(floor(50000/1000), MAX_YEARS) = 50` — because
the Roth account holding all the money is not distributable at year 0. -/
theorem noGrowth_formula_cex :
    (∀ (c : Fin MAX_ACCOUNTS) (n : ℕ), n < MAX_YEARS →
        cexNoGrowthState.growthRate c n = 0)
    ∧ (∀ n, n < MAX_YEARS → cexNoGrowthState.inflation n = 0)
    ∧ cexNoGrowthState.takehomeIncome = 0
    ∧ cexNoGrowthState.contributionRoth = 0
    ∧ cexNoGrowthState.contributionIra = 0
    ∧ cexNoGrowthState.contributionR401k = 0
    ∧ totalValue cexNoGrowthState 0 = 50000
    ∧ cexNoGrowthState.expense 0 = 1000
    ∧ min ⌊totalValue cexNoGrowthState 0 / cexNoGrowthState.expense 0⌋
        (MAX_YEARS : ℤ) = 50
    ∧ (calculateN cexNoGrowthState).fundLongevity = 0 := by
  have htot : totalValue cexNoGrowthState 0 = 50000 := by
    norm_num +decide [totalValue, cexNoGrowthState, initializeFromUserData,
      clearCashReserve, addCashReserve, assetInit, cexUser, CASH_RESERVE,
      INDIVIDUAL_INDEX, ROTH_INDEX]
  have hexp : cexNoGrowthState.expense 0 = 1000 := rfl
  refine ⟨fun c n hn => rfl, ?_, rfl, rfl, rfl, rfl, htot, hexp, ?_, ?_⟩
  · intro n hn
    simp +decide [cexNoGrowthState, initializeFromUserData, clearCashReserve,
      addCashReserve, assetInit, cexUser]
  · rw [htot, hexp, show (50000 : ℚ) / 1000 = ((50 : ℤ) : ℚ) by norm_num,
      Int.floor_intCast]
    norm_num
  · show (calcLoop MAX_YEARS 0 cexNoGrowthState).fundLongevity = 0
    rw [show MAX_YEARS = 49 + 1 from rfl,
      calcLoop_succ 49 0 cexNoGrowthState (by norm_num),
      stateAtCheck_eq_self cexNoGrowthState 0 rfl rfl rfl rfl rfl
        (fun n hn => rfl) (by norm_num)]
    have hc1 : distributableTotal cexNoGrowthState 0
        < netExpense cexNoGrowthState 0 := by
      norm_num +decide [distributableTotal, netExpense, cexNoGrowthState,
        initializeFromUserData, clearCashReserve, addCashReserve, assetInit,
        cexUser, CASH_RESERVE, INDIVIDUAL_INDEX, ROTH_INDEX]
    have hc2 : ¬ (netExpense cexNoGrowthState 0
        < distributableTotal cexNoGrowthState 0 + cexNoGrowthState.cashReserve) := by
      norm_num +decide [distributableTotal, netExpense, cexNoGrowthState,
        initializeFromUserData, clearCashReserve, addCashReserve, assetInit,
        cexUser, CASH_RESERVE, INDIVIDUAL_INDEX, ROTH_INDEX]
    rw [if_pos hc1, if_neg hc2]
    rfl

/-- The four-equal-accounts profile of the claim: each account holds 12,500,
expense 1,000, everything else zero. -/
def exUser : UserData where
  name := fun _ => ""
  value := fun _ => 12500
  rate := fun _ => 0
  initialExpense := 1000
  takehomeIncome := 0
  contributionRoth := 0
  contributionIra := 0
  contributionR401k := 0
  initialInflation := 0
  yearsTillRetirement := 0

/-- The simulation state built from `exUser` by the standard initializer. -/
def exNoGrowthState : AssetState :=
  initializeFromUserData exUser assetInit

/-- C3 witness: the amended theorem applied to the claim's own example —
4 accounts of 12,500 (total 50,000), expense 1,000, zero
growth/inflation/income — yields `fundLongevity = min(floor(50000/1000),
MAX_YEARS) = 50`. -/
theorem calculateN_noGrowth_witness :
    (calculateN exNoGrowthState).fundLongevity
        = min ⌊totalValue exNoGrowthState 0 / exNoGrowthState.expense 0⌋
            (MAX_YEARS : ℤ)
    ∧ min ⌊totalValue exNoGrowthState 0 / exNoGrowthState.expense 0⌋
        (MAX_YEARS : ℤ) = 50
    ∧ totalValue exNoGrowthState 0 = 50000
    ∧ exNoGrowthState.expense 0 = 1000 := by
  have htot : totalValue exNoGrowthState 0 = 50000 := by
    norm_num +decide [totalValue, exNoGrowthState, initializeFromUserData,
      clearCashReserve, addCashReserve, assetInit, exUser, CASH_RESERVE,
      INDIVIDUAL_INDEX]
  have hexp : exNoGrowthState.expense 0 = 1000 := rfl
  refine ⟨calculateN_noGrowth exNoGrowthState
      (fun c n hn => rfl) ?_ rfl rfl rfl rfl ?_ ?_ ?_ (by decide) ?_,
    ?_, htot, hexp⟩
  · intro n hn
    simp +decide [exNoGrowthState, initializeFromUserData, clearCashReserve,
      addCashReserve, assetInit, exUser]
  · norm_num +decide [exNoGrowthState, initializeFromUserData, clearCashReserve,
      addCashReserve, assetInit, exUser, CASH_RESERVE, INDIVIDUAL_INDEX]
  · intro c n hn h1
    simp +decide [exNoGrowthState, initializeFromUserData, clearCashReserve,
      addCashReserve, assetInit, exUser, INDIVIDUAL_INDEX, hn, h1]
  · intro c
    fin_cases c <;>
      norm_num +decide [exNoGrowthState, initializeFromUserData, clearCashReserve,
        addCashReserve, assetInit, exUser, CASH_RESERVE, INDIVIDUAL_INDEX]
  · norm_num +decide [distributableTotal, exNoGrowthState, initializeFromUserData,
      clearCashReserve, addCashReserve, assetInit, exUser, CASH_RESERVE,
      INDIVIDUAL_INDEX]
  · rw [htot, hexp, show (50000 : ℚ) / 1000 = ((50 : ℤ) : ℚ) by norm_num,
      Int.floor_intCast]
    norm_num

end PersonalFinSim
